import Mathlib

set_option maxHeartbeats 1000000
set_option maxRecDepth 100000

/-! Formal model of the query-enrichment and reranking pipeline of the
conversational recommendation backend, with proofs of its specification
properties.  Python strings are modelled as Lean strings (sequences of
characters), Python floats that are only ever compared are modelled as
rationals, and Python dicts keyed by strings as association lists with
unique keys in insertion order. -/

/-- Python whitespace class (as used by a bare `str.split`, `str.strip` and
the regex class `\s`), restricted to the ASCII whitespace characters; the
inputs treated here contain no Unicode whitespace. -/
def pyIsSpace (c : Char) : Bool :=
  c == ' ' || c == '\t' || c == '\n' || c == '\r' || c == '\x0b' || c == '\x0c'

/-- Python word-character class `\w`: ASCII letters, digits and underscore;
characters outside ASCII are treated as word characters (Python's Unicode
`\w` classifies the bilingual letters that occur in the keyword tables as
word characters). -/
def pyIsWordChar (c : Char) : Bool :=
  c.isAlphanum || c == '_' || decide (128 ≤ c.toNat)

/-- Lower-casing of a Python string (`str.lower`); it agrees with Python on
the ASCII range, where every case-sensitive comparison in this model takes
place. -/
def pyLower (s : String) : String := ⟨s.data.map Char.toLower⟩

/-- The character list `s` starts with the pattern `p`. -/
def listStartsWith : List Char → List Char → Bool
  | [], _ => true
  | _ :: _, [] => false
  | p :: ps, c :: cs => p == c && listStartsWith ps cs

/-- Python's substring test `pat in s` on character lists; the empty
pattern occurs in every string. -/
def occursIn (pat : List Char) : List Char → Bool
  | [] => pat.isEmpty
  | c :: rest => listStartsWith pat (c :: rest) || occursIn pat rest

/-- Python's substring operator `pat in s` on strings. -/
def pyIn (pat s : String) : Bool := occursIn pat.data s.data

/-- Python `str.strip()`: remove leading and trailing whitespace. -/
def pyStrip (s : String) : String :=
  ⟨((s.data.dropWhile pyIsSpace).reverse.dropWhile pyIsSpace).reverse⟩

/-- Helper for `pySplitWs`, accumulating the current token reversed. -/
def pySplitWsAux : List Char → List Char → List String
  | [], acc => if acc.isEmpty then [] else [⟨acc.reverse⟩]
  | c :: rest, acc =>
    if pyIsSpace c then
      if acc.isEmpty then pySplitWsAux rest []
      else ⟨acc.reverse⟩ :: pySplitWsAux rest []
    else pySplitWsAux rest (c :: acc)

/-- Python `str.split()` with no argument: split on whitespace runs,
discarding empty tokens. -/
def pySplitWs (s : String) : List String := pySplitWsAux s.data []

/-- Helper for `pySplitOn`, accumulating the current field reversed. -/
def pySplitOnAux (sep : Char) : List Char → List Char → List String
  | [], acc => [⟨acc.reverse⟩]
  | c :: rest, acc =>
    if c == sep then ⟨acc.reverse⟩ :: pySplitOnAux sep rest []
    else pySplitOnAux sep rest (c :: acc)

/-- Python `str.split(sep)` for a one-character separator, keeping empty
fields. -/
def pySplitOn (sep : Char) (s : String) : List String := pySplitOnAux sep s.data []

/-- Python list slice `l[-n:]`.  For `n = 0` Python reads `l[-0:]` as
`l[0:]`, the whole list. -/
def pyLastSlice (n : Nat) (l : List α) : List α :=
  if n = 0 then l else l.drop (l.length - n)

/-- Python string slice `s[:n]`. -/
def strTake (n : Nat) (s : String) : String := ⟨s.data.take n⟩

/-- Python string slice `s[-n:]`. -/
def strLastSlice (n : Nat) (s : String) : String := ⟨pyLastSlice n s.data⟩

/-- Numeric value of a run of decimal digit characters (Python `int`). -/
def digitsToNat (ds : List Char) : Nat :=
  ds.foldl (fun n c => n * 10 + (c.toNat - 48)) 0

/-- Strict lexicographic "greater than" on rational tuples: the comparison
Python applies to the score tuples produced by the reranker's key function
(Python booleans compare as the integers 0 and 1, so the tuples are modelled
as rational vectors). -/
def lexGt : List ℚ → List ℚ → Bool
  | [], _ => false
  | _ :: _, [] => true
  | x :: xs, y :: ys => if y < x then true else if x < y then false else lexGt xs ys

/-- Insertion step of a stable descending sort by key: the new element goes
after every already-placed element with a strictly greater key and before
everything else, so earlier elements keep their place under ties. -/
def insertScoreDesc (key : α → List ℚ) (x : α) : List α → List α
  | [] => [x]
  | y :: ys =>
    if lexGt (key y) (key x) then y :: insertScoreDesc key x ys
    else x :: y :: ys

/-- Stable sort of a list by `key`, greatest key first: the specification of
Python's `list.sort(key=key, reverse=True)` (Timsort is stable, and
`reverse=True` preserves the list order of elements with equal keys). -/
def sortScoreDesc (key : α → List ℚ) : List α → List α
  | [] => []
  | x :: xs => insertScoreDesc key x (sortScoreDesc key xs)

/-! Model of `memory_service.ConversationMemory`: the Python dict
`conversations` is an association list with unique keys in insertion
order. -/

/-- In-memory conversation store with its `max_history` bound
(`ConversationMemory.__init__`). -/
structure ConversationMemory where
  conversations : List (String × List (String × String))
  max_history : Nat
deriving DecidableEq

/-- Dict lookup `self.conversations.get(session_id)`. -/
def lookupSession (m : ConversationMemory) (session_id : String) :
    Option (List (String × String)) :=
  (m.conversations.find? (fun kv => kv.1 == session_id)).map (fun kv => kv.2)

/-- Dict update `self.conversations[session_id] = v`: replace the existing
entry in place, or append a new one (Python dicts keep insertion order). -/
def setSession : List (String × List (String × String)) → String →
    List (String × String) → List (String × List (String × String))
  | [], sid, v => [(sid, v)]
  | kv :: rest, sid, v =>
    if kv.1 == sid then (sid, v) :: rest else kv :: setSession rest sid v

/-- ConversationMemory.add_message: append the `(question, answer)` turn to
the session's list (creating it when absent), then keep only the last
`max_history` turns when the list has overflowed. -/
def ConversationMemory.add_message (m : ConversationMemory)
    (session_id question answer : String) : ConversationMemory :=
  let cur := (lookupSession m session_id).getD []
  let appended := cur ++ [(question, answer)]
  let stored :=
    if m.max_history < appended.length then pyLastSlice m.max_history appended
    else appended
  { m with conversations := setSession m.conversations session_id stored }

/-- ConversationMemory.get_history: `self.conversations.get(session_id, [])`. -/
def ConversationMemory.get_history (m : ConversationMemory)
    (session_id : String) : List (String × String) :=
  (lookupSession m session_id).getD []

/-- ConversationMemory.clear_session: delete the entry if present, otherwise
do nothing. -/
def ConversationMemory.clear_session (m : ConversationMemory)
    (session_id : String) : ConversationMemory :=
  if m.conversations.any (fun kv => kv.1 == session_id) then
    { m with conversations := m.conversations.filter (fun kv => !(kv.1 == session_id)) }
  else m

/-- The store built by `get_memory_service()`:
`ConversationMemory(max_history=10)` with no sessions yet. -/
def initialMemory : ConversationMemory := ⟨[], 10⟩

/-! A small backtracking regular-expression engine, used to give exact
meaning to the `re` patterns of the source.  Word boundaries need the
character immediately before the current position, so the matcher threads
that character along; recursion is bounded by explicit fuel (every pattern
used below consumes input inside each starred subterm, so a fuel linear in
the input length is sufficient). -/

/-- Regular expression syntax: literal runs, single-character classes,
sequencing, ordered alternation, greedy star, greedy option and the
word-boundary assertion `\b`. -/
inductive Rx where
  | eps : Rx
  | lit : List Char → Rx
  | cls : (Char → Bool) → Rx
  | seq : Rx → Rx → Rx
  | alt : Rx → Rx → Rx
  | star : Rx → Rx
  | opt : Rx → Rx
  | bnd : Rx

/-- Word-boundary test between the previous character (none at the start of
the input) and the head of the remaining input: Python's `\b` holds when
exactly one side is a word character. -/
def isBnd (prev : Option Char) (s : List Char) : Bool :=
  let wl := match prev with | none => false | some c => pyIsWordChar c
  let wr := match s with | [] => false | c :: _ => pyIsWordChar c
  wl != wr

/-- Literal matching in continuation style, threading the previous
character. -/
def litK : List Char → Option Char → List Char →
    (Option Char → List Char → Bool) → Bool
  | [], prev, s, k => k prev s
  | c :: cs, _, s, k =>
    match s with
    | [] => false
    | x :: xs => c == x && litK cs (some x) xs k

/-- Backtracking matcher in continuation-passing style.  Alternation tries
the left branch first, star and option are greedy, exactly as in Python's
`re`. -/
def rxM : Nat → Rx → Option Char → List Char →
    (Option Char → List Char → Bool) → Bool
  | 0, _, _, _, _ => false
  | _ + 1, Rx.eps, prev, s, k => k prev s
  | _ + 1, Rx.bnd, prev, s, k => isBnd prev s && k prev s
  | _ + 1, Rx.lit cs, prev, s, k => litK cs prev s k
  | _ + 1, Rx.cls p, _, s, k =>
    match s with
    | [] => false
    | c :: t => p c && k (some c) t
  | fuel + 1, Rx.seq a b, prev, s, k =>
    rxM fuel a prev s (fun p2 s2 => rxM fuel b p2 s2 k)
  | fuel + 1, Rx.alt a b, prev, s, k =>
    rxM fuel a prev s k || rxM fuel b prev s k
  | fuel + 1, Rx.star a, prev, s, k =>
    rxM fuel a prev s (fun p2 s2 => rxM fuel (Rx.star a) p2 s2 k) || k prev s
  | fuel + 1, Rx.opt a, prev, s, k =>
    rxM fuel a prev s k || k prev s

/-- Try a match at the current position, then at every later position:
Python's `re.search` succeeds when a match starts anywhere. -/
def rxSearchAux (fuel : Nat) (r : Rx) : Option Char → List Char → Bool
  | prev, [] => rxM fuel r prev [] (fun _ _ => true)
  | prev, c :: rest =>
    rxM fuel r prev (c :: rest) (fun _ _ => true) || rxSearchAux fuel r (some c) rest

/-- Truth of `re.search(r, s)`, with fuel amply proportional to the input
length. -/
def rxSearch (r : Rx) (s : String) : Bool :=
  rxSearchAux ((s.data.length + 4) * 16) r none s.data

/-- Literal regex fragment from a string. -/
def rxLit (w : String) : Rx := Rx.lit w.data

/-- Sequencing of a list of regex fragments. -/
def rxSeq (rs : List Rx) : Rx := rs.foldr Rx.seq Rx.eps

/-- Ordered alternation of a list of regex fragments. -/
def rxAlt : List Rx → Rx
  | [] => Rx.cls (fun _ => false)
  | r :: rs => rs.foldl Rx.alt r

/-- The regex fragment `\s+`. -/
def rxSp1 : Rx := Rx.seq (Rx.cls pyIsSpace) (Rx.star (Rx.cls pyIsSpace))

/-- The regex fragment `\s*`. -/
def rxSp0 : Rx := Rx.star (Rx.cls pyIsSpace)

/-- The regex fragment `.*` (any characters other than a newline). -/
def rxDotStar : Rx := Rx.star (Rx.cls (fun c => !(c == '\n')))

/-- The apostrophe character, as it appears in the `what's`/`who's`
patterns. -/
def aposChar : Char := Char.ofNat 39

/-! Model of `query_parser_service.QueryParserService`. -/

/-- QueryParserService.movie_keywords: keywords related to movies and TV
shows (bilingual). -/
def movie_keywords : List String := [
  "movie", "movies", "film", "films", "tv show", "tv shows",
  "series", "show", "shows", "netflix", "watch", "watching",
  "recommend", "recommendation", "suggest", "suggestion",
  "actor", "actress", "director", "cast", "genre", "rating",
  "action", "comedy", "drama", "thriller", "horror", "romance",
  "documentary", "animation", "sci-fi", "fantasy", "crime",
  "mystery", "adventure", "family", "western", "war",
  "phim", "phim ảnh", "xem phim", "bộ phim", "diễn viên",
  "đạo diễn", "hành động", "kinh dị", "tình cảm", "hài",
  "anime", "cartoon", "season", "episode", "streaming",
  "blockbuster", "oscar", "imdb", "released", "premiere",
  "year", "năm"]

/-- QueryParserService.non_movie_keywords: keywords for out-of-scope
questions, exactly as written in the source (note that the month names and
"Tháng"/"Month" are capitalised there). -/
def non_movie_keywords : List String := [
  "weather", "temperature", "forecast", "rain", "sunny",
  "thời tiết", "nhiệt độ", "trời", "mưa", "nắng",
  "name", "your name", "who are you", "what are you",
  "tên", "tên bạn", "bạn là ai", "bạn là gì",
  "calculate", "math", "solve", "equation",
  "tính", "toán", "giải",
  "news", "current events", "politics", "sports",
  "tin tức", "thể thao", "chính trị",
  "recipe", "cooking", "food", "restaurant",
  "công thức", "nấu ăn", "món ăn", "nhà hàng",
  "translate", "translation", "dịch", "meaning",
  "book", "novel", "read", "sách", "tiểu thuyết",
  "đọc", "Tháng", "Month", "January", "February",
  "March", "April", "May", "June", "July", "August",
  "September", "October", "November", "December",
  "Jan", "Feb", "Mar", "Apr", "Jun", "Jul", "Aug",
  "Sep", "Oct", "Nov", "Dec"]

/-- The movie-inquiry regex patterns of `is_movie_related`, transcribed
pattern by pattern. -/
def movie_inquiry_patterns : List Rx := [
  rxSeq [Rx.bnd, rxAlt [
    rxSeq [rxLit "tell", rxSp1, rxLit "me", rxSp1, rxLit "more", rxSp1, rxLit "about"],
    rxSeq [rxLit "tell", rxSp1, rxLit "me", rxSp1, rxLit "about"],
    rxSeq [rxLit "what", rxSp1, rxLit "is"],
    rxSeq [rxLit "what", Rx.opt (Rx.lit [aposChar]), rxLit "s"],
    rxSeq [rxLit "who", rxSp1, rxLit "is"],
    rxSeq [rxLit "who", Rx.opt (Rx.lit [aposChar]), rxLit "s"],
    rxLit "describe", rxLit "explain"], Rx.bnd],
  rxSeq [Rx.bnd,
    rxAlt [rxLit "about", rxLit "info", rxLit "information", rxLit "details", rxLit "detail"],
    Rx.bnd, rxDotStar, Rx.bnd,
    rxAlt [rxLit "movie", rxLit "film", rxLit "show", rxLit "series", rxLit "tv"], Rx.bnd],
  rxSeq [Rx.bnd,
    rxAlt [rxLit "movie", rxLit "film", rxLit "show", rxLit "series", rxLit "tv"],
    Rx.bnd, rxDotStar, Rx.bnd,
    rxAlt [rxLit "about", rxLit "info", rxLit "information", rxLit "details"], Rx.bnd],
  rxSeq [Rx.bnd,
    rxAlt [rxLit "find", rxLit "search", rxSeq [rxLit "look", rxSp1, rxLit "for"]],
    Rx.bnd, rxDotStar, Rx.bnd,
    rxAlt [rxLit "movie", rxLit "film", rxLit "show", rxLit "series"], Rx.bnd]]

/-- The movie-context regex patterns of `is_movie_related`, transcribed
pattern by pattern. -/
def movie_context_patterns : List Rx := [
  rxSeq [Rx.bnd,
    rxAlt [rxLit "best", rxLit "top", rxLit "good", rxLit "great", rxLit "popular", rxLit "famous"],
    Rx.bnd, rxDotStar, Rx.bnd,
    rxAlt [rxLit "watch", rxLit "see", rxLit "view"], Rx.bnd],
  rxSeq [Rx.bnd,
    rxAlt [rxLit "what", rxLit "which", rxLit "any"],
    Rx.bnd, rxDotStar, Rx.bnd,
    rxAlt [rxLit "good", rxLit "watch", rxLit "see", rxLit "recommend"], Rx.bnd],
  rxSeq [Rx.bnd, rxLit "show", rxSp1, rxLit "me", Rx.bnd],
  rxSeq [Rx.bnd, rxLit "looking", rxSp1, rxLit "for", Rx.bnd],
  rxSeq [Rx.bnd, rxLit "find", Rx.bnd, rxDotStar, Rx.bnd,
    rxAlt [rxLit "watch", rxLit "see"], Rx.bnd]]

/-- QueryParserService.is_movie_related: keyword check for the movie domain
first, then the off-topic keyword check, then the inquiry and context
regex patterns, and finally the short-query default-allow rule. -/
def is_movie_related (query : String) : Bool :=
  let query_lower := pyLower query
  if movie_keywords.any (fun kw => pyIn kw query_lower) then true
  else if non_movie_keywords.any (fun kw => pyIn kw query_lower) then false
  else if movie_inquiry_patterns.any (fun p => rxSearch p query_lower) then true
  else if movie_context_patterns.any (fun p => rxSearch p query_lower) then true
  else if (pySplitWs query).length ≤ 5
      && !(non_movie_keywords.any (fun kw => pyIn kw query_lower)) then true
  else false

/-! Model of `qdrant_service.QdrantService.parse_query_regex` and the
fallback behaviour of `parse_query_with_llm`. -/

/-- The filter dictionary shape extracted from a query: country, type, year
and genre, each optional (an absent dict key is `none`). -/
structure Filters where
  country : Option String
  type : Option String
  year : Option Nat
  genre : Option String
deriving DecidableEq

/-- The country patterns of `parse_query_regex` with the country each maps
to, transcribed pattern by pattern. -/
def country_patterns : List (Rx × String) := [
  (rxSeq [Rx.bnd, Rx.opt (rxSeq [rxLit "phim", rxSp1]), rxLit "mỹ", Rx.bnd], "United States"),
  (rxSeq [Rx.bnd, Rx.opt (rxSeq [rxLit "phim", rxSp1]), rxLit "việt", Rx.bnd], "Vietnam"),
  (rxSeq [Rx.bnd, Rx.opt (rxSeq [rxLit "phim", rxSp1]), rxLit "hàn", Rx.bnd], "South Korea"),
  (rxSeq [Rx.bnd, rxAlt [rxLit "american", rxLit "usa", rxLit "us"], Rx.bnd], "United States"),
  (rxSeq [Rx.bnd, rxAlt [rxLit "korean", rxLit "korea"], Rx.bnd], "South Korea"),
  (rxSeq [Rx.bnd, rxAlt [rxLit "vietnamese", rxLit "vietnam"], Rx.bnd], "Vietnam"),
  (rxSeq [Rx.bnd, rxAlt [rxLit "japanese", rxLit "japan"], Rx.bnd], "Japan"),
  (rxSeq [Rx.bnd, rxAlt [rxLit "chinese", rxLit "china"], Rx.bnd], "China")]

/-- The genre patterns of `parse_query_regex` with the genre each maps to,
transcribed pattern by pattern. -/
def fallback_genre_patterns : List (Rx × String) := [
  (rxSeq [Rx.bnd, rxAlt [rxLit "hành động", rxLit "action"], Rx.bnd], "Action"),
  (rxSeq [Rx.bnd, rxAlt [rxLit "hài", rxLit "comedy"], Rx.bnd], "Comedy"),
  (rxSeq [Rx.bnd, rxAlt [rxLit "kinh dị", rxLit "horror"], Rx.bnd], "Horror"),
  (rxSeq [Rx.bnd, rxAlt [rxLit "tình cảm", rxLit "romance"], Rx.bnd], "Romance"),
  (rxSeq [Rx.bnd, rxLit "drama", Rx.bnd], "Drama"),
  (rxSeq [Rx.bnd, rxLit "thriller", Rx.bnd], "Thriller")]

/-- The type pattern `\b(?:movies?|phim)\b` of `parse_query_regex`. -/
def fallback_movie_type_rx : Rx :=
  rxSeq [Rx.bnd, rxAlt [rxSeq [rxLit "movie", Rx.opt (rxLit "s")], rxLit "phim"], Rx.bnd]

/-- The type pattern `\b(?:tv\s*shows?|series)\b` of `parse_query_regex`. -/
def fallback_tv_type_rx : Rx :=
  rxSeq [Rx.bnd,
    rxAlt [rxSeq [rxLit "tv", rxSp0, rxLit "show", Rx.opt (rxLit "s")], rxLit "series"],
    Rx.bnd]

/-- First run of four consecutive decimal digits in the input, as matched by
`re.search` with the year pattern `(?:năm\s+)?(\d{4})` (the optional prefix
does not change the captured digits). -/
def find4digits : List Char → Option Nat
  | [] => none
  | c :: rest =>
    match c :: rest with
    | d1 :: d2 :: d3 :: d4 :: _ =>
      if d1.isDigit && d2.isDigit && d3.isDigit && d4.isDigit then
        some (digitsToNat [d1, d2, d3, d4])
      else find4digits rest
    | _ => none

/-- QdrantService.parse_query_regex: the local deterministic fallback
parser, extracting country, type, year and genre filters from fixed
bilingual pattern tables (first matching pattern wins in each table). -/
def parse_query_regex (query : String) : Filters :=
  let ql := pyLower query
  let country := (country_patterns.find? (fun pr => rxSearch pr.1 ql)).map (fun pr => pr.2)
  let ty :=
    if rxSearch fallback_movie_type_rx ql then some "Movie"
    else if rxSearch fallback_tv_type_rx ql then some "TV Show"
    else none
  let year := find4digits query.data
  let genre := (fallback_genre_patterns.find? (fun pr => rxSearch pr.1 ql)).map (fun pr => pr.2)
  ⟨country, ty, year, genre⟩

/-- Outcome of the remote-normalisation try block of
`parse_query_with_llm`: the chat-completion call, markdown-fence stripping,
JSON parsing, field extraction and null-filtering either produce an
optimised summary plus filters, or raise.  The whole fallible block is
modelled as an `Except` input. -/
structure LLMReply where
  optimized_summary : String
  filters : Filters
deriving DecidableEq

/-- QdrantService.parse_query_with_llm: return the LLM's optimised summary
and filters on success; on any exception fall back to the original query
text and the regex parser's filters. -/
def parse_query_with_llm (llm_outcome : Except String LLMReply)
    (query : String) : String × Filters :=
  match llm_outcome with
  | Except.ok reply => (reply.optimized_summary, reply.filters)
  | Except.error _ => (query, parse_query_regex query)

/-! Model of the candidate handling in
`langchain_service.get_recommendation`. -/

/-- A candidate row as built into `context` by `get_recommendation`: the
payload fields copied from the vector store plus the retrieval similarity
score.  Every row built by the pipeline carries all the keys, so the fields
are plain strings here. -/
structure CatalogueItem where
  title : String
  description : String
  genre : String
  year : String
  type : String
  rating : String
  cast : String
  country : String
  score : ℚ
deriving DecidableEq

/-- A point payload returned by the vector store; `payload.get(key,
default)` reads an optional field with a default. -/
structure SearchPayload where
  title : Option String
  description : Option String
  genre : Option String
  year : Option String
  type : Option String
  rating : Option String
  cast : Option String
  country : Option String
deriving DecidableEq

/-- A raw search result: an optional payload and a similarity score. -/
structure SearchResult where
  payload : Option SearchPayload
  score : ℚ
deriving DecidableEq

/-- The context-row constructor used by all three search loops of
`get_recommendation`, with the `payload.get` defaults of the source. -/
def payload_to_item (p : SearchPayload) (score : ℚ) : CatalogueItem :=
  { title := p.title.getD "Unknown",
    description := p.description.getD "No description available",
    genre := p.genre.getD "",
    year := p.year.getD "",
    type := p.type.getD "Unknown",
    rating := p.rating.getD "",
    cast := p.cast.getD "",
    country := p.country.getD "",
    score := score }

/-- The primary context-building loop of `get_recommendation` (the "Format
context from search results" loop): skip results without payload, skip
titles whose lower-casing is in the exclusion set, and append everything
else in order. -/
def format_context : List SearchResult → List String → List CatalogueItem
  | [], _ => []
  | r :: rest, excluded_titles =>
    match r.payload with
    | none => format_context rest excluded_titles
    | some payload =>
      let title := payload.title.getD "Unknown"
      if excluded_titles.contains (pyLower title) then
        format_context rest excluded_titles
      else payload_to_item payload r.score :: format_context rest excluded_titles

/-- The broader-search merge loop of `get_recommendation`: stop as soon as
the context holds 5 rows, skip payload-less results, excluded titles, and
titles already present in the context (case-insensitive), and append the
rest. -/
def merge_broader (context : List CatalogueItem)
    (broader_results : List SearchResult) (excluded_titles : List String) :
    List CatalogueItem :=
  match broader_results with
  | [] => context
  | r :: rest =>
    if 5 ≤ context.length then context
    else
      match r.payload with
      | none => merge_broader context rest excluded_titles
      | some payload =>
        let title := payload.title.getD "Unknown"
        if excluded_titles.contains (pyLower title) then
          merge_broader context rest excluded_titles
        else if context.any (fun c => pyLower c.title == pyLower title) then
          merge_broader context rest excluded_titles
        else
          merge_broader (context ++ [payload_to_item payload r.score]) rest
            excluded_titles

/-- The candidate list has no two rows with the same lower-cased title. -/
def distinctTitles : List CatalogueItem → Bool
  | [] => true
  | c :: rest =>
    !(rest.any (fun d => pyLower d.title == pyLower c.title)) && distinctTitles rest

/-- The profile fields consulted by the post-filter/rerank step of
`get_recommendation` (each list may contain empty entries, which the source
drops with its `if g` comprehension guards; an absent
`language_preference` is `none`). -/
structure UserProfile where
  favorite_genres : List String
  disliked_genres : List String
  favorite_actors : List String
  language_preference : Option String
deriving DecidableEq

/-- The `comprehensive_match_score` key function of `get_recommendation`,
taking the already cleaned and lower-cased preference lists: the sort key is
the tuple (has genre match, genre match count, has actor match, actor match
count, country match, similarity score), with booleans as 0/1. -/
def comprehensive_match_score (favorite_genres favorite_actors : List String)
    (language_prefs : String) (item : CatalogueItem) : List ℚ :=
  let genre_str := pyLower item.genre
  let cast_str := pyLower item.cast
  let country_str := pyLower item.country
  let genre_matches := (favorite_genres.filter (fun fav => pyIn fav genre_str)).length
  let actor_matches := (favorite_actors.filter (fun actor => pyIn actor cast_str)).length
  let country_match : ℚ :=
    if language_prefs = "" then 0
    else
      let lang_countries := pySplitOn ',' language_prefs
      if lang_countries.any (fun c =>
          if pyStrip c = "" then false
          else pyIn (pyStrip c) country_str || pyIn country_str (pyStrip c)) then 1
      else 0
  [if 0 < genre_matches then 1 else 0, (genre_matches : ℚ),
   if 0 < actor_matches then 1 else 0, (actor_matches : ℚ),
   country_match, item.score]

/-- The post-filter-and-boost step of `get_recommendation` (the Profile
Reranker): with no profile the context is left as retrieved; with a profile,
clean the preference lists (drop falsy entries, lower-case the rest), remove
candidates matching any disliked genre when there are disliked genres, and
stable-sort the rest by `comprehensive_match_score`, highest first. -/
def rerank (user_profile : Option UserProfile) (context : List CatalogueItem) :
    List CatalogueItem :=
  match user_profile with
  | none => context
  | some up =>
    let favorite_genres := (up.favorite_genres.filter (fun g => !(g == ""))).map pyLower
    let disliked_genres := (up.disliked_genres.filter (fun g => !(g == ""))).map pyLower
    let favorite_actors := (up.favorite_actors.filter (fun a => !(a == ""))).map pyLower
    let language_prefs := pyLower (up.language_preference.getD "")
    let filtered :=
      if disliked_genres.isEmpty then context
      else context.filter (fun c =>
        !(disliked_genres.any (fun d => pyIn d (pyLower c.genre))))
    sortScoreDesc
      (comprehensive_match_score favorite_genres favorite_actors language_prefs)
      filtered

/-! The four title-extraction passes of `get_recommendation` over prior
assistant answers, one hand-compiled matcher per `re` pattern. -/

/-- The literal `**Title**:` that anchors the first three patterns. -/
def titleTag : List Char := "**Title**:".data

/-- Generic `re.findall` driver: try a match at every position from the
left, emit the captured group and continue right after each match.  Fuel is
the input length plus one; every pattern below consumes at least one
character per match. -/
def scanFindall (tryAt : List Char → Option (List Char × List Char)) :
    Nat → List Char → List (List Char)
  | 0, _ => []
  | _ + 1, [] => []
  | fuel + 1, c :: rest =>
    match tryAt (c :: rest) with
    | some (g, after) => g :: scanFindall tryAt fuel after
    | none => scanFindall tryAt fuel rest

/-- Backtracking of a greedy `\s*`: try the position with all whitespace
consumed first, then give back one whitespace character at a time. -/
def giveBack (spRev : List Char) (rest : List Char)
    (attempt : List Char → Option α) : Option α :=
  match attempt rest with
  | some v => some v
  | none =>
    match spRev with
    | [] => none
    | c :: cs => giveBack cs (c :: rest) attempt

/-- Matcher for method 1, `\*\*Title\*\*:\s*\*\*([^*]+)\*\*`, at the start
of the input: the whitespace run and the non-star run are both determined
(backtracking cannot help because `*` is not whitespace and `[^*]` cannot
match `*`). -/
def tryM1 (s : List Char) : Option (List Char × List Char) :=
  if listStartsWith titleTag s then
    let r2 := (s.drop titleTag.length).dropWhile pyIsSpace
    if listStartsWith ['*', '*'] r2 then
      let r3 := r2.drop 2
      let content := r3.takeWhile (fun c => !(c == '*'))
      let r4 := r3.dropWhile (fun c => !(c == '*'))
      if !content.isEmpty && listStartsWith ['*', '*'] r4 then
        some (content, r4.drop 2)
      else none
    else none
  else none

/-- Lazy tail of method 2: consume `[^\n*]` characters one at a time (the
accumulator is kept reversed), testing `(?:\n|$)` before each extension. -/
def lazyM2 : List Char → List Char → Option (List Char × List Char)
  | acc, [] => some (acc.reverse, [])
  | acc, c :: t =>
    if c == '\n' then some (acc.reverse, t)
    else if !(c == '*') then lazyM2 (c :: acc) t
    else none

/-- Matcher for method 2, `\*\*Title\*\*:\s*([^\n*]+?)(?:\n|$)`, at the
start of the input: the greedy `\s*` backtracks (whitespace other than a
newline is also matched by `[^\n*]`), the capture group is lazy. -/
def tryM2 (s : List Char) : Option (List Char × List Char) :=
  if listStartsWith titleTag s then
    let r1 := s.drop titleTag.length
    let sp := r1.takeWhile pyIsSpace
    let r2 := r1.dropWhile pyIsSpace
    giveBack sp.reverse r2 (fun rest =>
      match rest with
      | [] => none
      | c :: t =>
        if !(c == '\n') && !(c == '*') then lazyM2 [c] t else none)
  else none

/-- The positions reachable after the greedy `\*?\*?` of method 3, in
backtracking priority order. -/
def starOpts : List Char → List (List Char)
  | '*' :: '*' :: t => [t, '*' :: t, '*' :: t, '*' :: '*' :: t]
  | '*' :: t => [t, t, '*' :: t]
  | t => [t]

/-- Lazy tail of method 3: consume `[^*\n]` characters one at a time,
testing `(?:\*\*|$)` before each extension. -/
def lazyM3 : List Char → List Char → Option (List Char)
  | acc, [] => some acc.reverse
  | acc, c :: t =>
    if listStartsWith ['*', '*'] (c :: t) then some acc.reverse
    else if !(c == '*') && !(c == '\n') then lazyM3 (c :: acc) t
    else none

/-- Matcher for method 3, `\*\*Title\*\*:\s*\*?\*?([^*\n]+?)(?:\*\*|$)`, at
the start of the input. -/
def tryM3 (s : List Char) : Option (List Char) :=
  if listStartsWith titleTag s then
    let r1 := s.drop titleTag.length
    let sp := r1.takeWhile pyIsSpace
    let r2 := r1.dropWhile pyIsSpace
    giveBack sp.reverse r2 (fun rest =>
      (starOpts rest).findSome? (fun r =>
        match r with
        | [] => none
        | c :: t =>
          if !(c == '*') && !(c == '\n') then lazyM3 [c] t else none))
  else none

/-- `re.search` driver for method 3: first match from the left. -/
def searchM3 : Nat → List Char → Option (List Char)
  | 0, _ => none
  | _ + 1, [] => none
  | fuel + 1, c :: rest =>
    match tryM3 (c :: rest) with
    | some g => some g
    | none => searchM3 fuel rest

/-- Matcher for method 4, `\d+\.\s*\*\*([^*]+)\*\*`, at the start of the
input (the digit, whitespace and non-star runs are all determined, as in
method 1). -/
def tryM4 (s : List Char) : Option (List Char × List Char) :=
  let ds := s.takeWhile Char.isDigit
  let r1 := s.dropWhile Char.isDigit
  if ds.isEmpty then none
  else
    match r1 with
    | '.' :: r2 =>
      let r3 := r2.dropWhile pyIsSpace
      if listStartsWith ['*', '*'] r3 then
        let r4 := r3.drop 2
        let content := r4.takeWhile (fun c => !(c == '*'))
        let r5 := r4.dropWhile (fun c => !(c == '*'))
        if !content.isEmpty && listStartsWith ['*', '*'] r5 then
          some (content, r5.drop 2)
        else none
      else none
    | _ => none

/-- `re.findall` of method 1 over an answer string. -/
def findallM1 (a : String) : List (List Char) :=
  scanFindall tryM1 (a.data.length + 1) a.data

/-- `re.findall` of method 2 over an answer string. -/
def findallM2 (a : String) : List (List Char) :=
  scanFindall tryM2 (a.data.length + 1) a.data

/-- `re.findall` of method 4 over an answer string. -/
def findallM4 (a : String) : List (List Char) :=
  scanFindall tryM4 (a.data.length + 1) a.data

/-- `re.sub(r'\*\*', '', s)`: remove the non-overlapping occurrences of
`**` from the left. -/
def removeDoubleStar : List Char → List Char
  | [] => []
  | '*' :: '*' :: t => removeDoubleStar t
  | c :: t => c :: removeDoubleStar t

/-- Insertion into the `excluded_titles` set, modelled as a duplicate-free
list in insertion order. -/
def addExcluded (l : List String) (t : String) : List String :=
  if l.contains t then l else l ++ [t]

/-- The excluded-titles extraction of `get_recommendation`: for each prior
turn run the four passes over the assistant answer in order, trimming and
lower-casing every hit; passes 2 and 3 first clean the hit and keep it only
when non-empty and longer than 2 characters. -/
def extract_excluded_titles (chat_history : List (String × String)) :
    List String :=
  chat_history.foldl (fun acc0 qa =>
    let a := qa.2
    let acc1 := (findallM1 a).foldl
      (fun ac t => addExcluded ac (pyLower (pyStrip ⟨t⟩))) acc0
    let acc2 := (findallM2 a).foldl
      (fun ac t =>
        let clean_title := pyStrip ⟨removeDoubleStar t⟩
        if !(clean_title == "") && 2 < clean_title.length then
          addExcluded ac (pyLower clean_title)
        else ac) acc1
    let acc3 := (pySplitOn '\n' a).foldl
      (fun ac line =>
        if pyIn "**Title**:" line then
          match searchM3 (line.data.length + 1) line.data with
          | some g =>
            let clean_title := pyStrip ⟨g⟩
            if !(clean_title == "") && 2 < clean_title.length then
              addExcluded ac (pyLower clean_title)
            else ac
          | none => ac
        else ac) acc2
    let acc4 := (findallM4 a).foldl
      (fun ac t => addExcluded ac (pyLower (pyStrip ⟨t⟩))) acc3
    acc4) []

/-! Model of `response_templates.ResponseTemplate`: the response-type
selector and the user half of the structured prompt built by
`create_structured_prompt` (the system half comes from `get_system_prompt`
and plays no role in the properties below). -/

/-- The closed enumeration `ResponseType`. -/
inductive ResponseType where
  | movie_recommendation
  | tv_show_recommendation
  | similar_content
  | genre_filter
  | detailed_info
  | trending
  | follow_up_reference
  | general_chat
deriving DecidableEq

/-- The `.value` string of each `ResponseType` member. -/
def ResponseType.value : ResponseType → String
  | ResponseType.movie_recommendation => "movie_recommendation"
  | ResponseType.tv_show_recommendation => "tv_show_recommendation"
  | ResponseType.similar_content => "similar_content"
  | ResponseType.genre_filter => "genre_filter"
  | ResponseType.detailed_info => "detailed_info"
  | ResponseType.trending => "trending"
  | ResponseType.follow_up_reference => "follow_up_reference"
  | ResponseType.general_chat => "general_chat"

/-- The follow-up reference keywords of `detect_response_type` (checked
first). -/
def follow_up_patterns : List String := [
  "how many", "bao nhiêu", "đã đề cập", "đã nói", "ở trên", "above",
  "those", "these", "them", "it", "that one", "which one",
  "the movies", "the films", "the shows", "phim nào", "cái nào"]

/-- The detailed-information phrases of `detect_response_type`. -/
def detail_info_patterns : List String := [
  "details", "tell me about", "tell me more about movie/tv-show", "what is",
  "information about", "info about", "more about"]

/-- ResponseTemplate.detect_response_type: ordered keyword classification of
the query, then of the candidate types, defaulting to general chat. -/
def detect_response_type (query : String) (context : List CatalogueItem) :
    ResponseType :=
  let query_lower := pyLower query
  if follow_up_patterns.any (fun p => pyIn p query_lower) then
    ResponseType.follow_up_reference
  else if pyIn "similar" query_lower || pyIn "like" query_lower then
    ResponseType.similar_content
  else if pyIn "trending" query_lower || pyIn "popular" query_lower
      || pyIn "hot" query_lower then
    ResponseType.trending
  else if detail_info_patterns.any (fun p => pyIn p query_lower) then
    ResponseType.detailed_info
  else if pyIn "genre" query_lower || pyIn "filter" query_lower
      || pyIn "type of" query_lower then
    ResponseType.genre_filter
  else
    let types := context.map (fun c => pyLower c.type)
    if types.any (fun t => pyIn "tv" t || pyIn "series" t) then
      ResponseType.tv_show_recommendation
    else if types.any (fun t => pyIn "movie" t) then
      ResponseType.movie_recommendation
    else if ["series", "show", "tv", "episode", "season"].any
        (fun w => pyIn w query_lower) then
      ResponseType.tv_show_recommendation
    else if ["movie", "film"].any (fun w => pyIn w query_lower) then
      ResponseType.movie_recommendation
    else ResponseType.general_chat

/-- One numbered entry of `format_context_for_prompt`. -/
def format_context_item (i : Nat) (item : CatalogueItem) : String :=
  toString i ++ ". **" ++ item.title ++ "** (" ++ item.year ++ ")\n" ++
  "   Type: " ++ item.type ++ "\n" ++
  "   Genre: " ++ item.genre ++ "\n" ++
  "   Rating: " ++ item.rating ++ "\n" ++
  "   Description: " ++ item.description ++ "\n\n"

/-- The numbered entries of `format_context_for_prompt`, numbering from
`i`. -/
def format_context_items (i : Nat) : List CatalogueItem → String
  | [] => ""
  | item :: rest => format_context_item i item ++ format_context_items (i + 1) rest

/-- ResponseTemplate.format_context_for_prompt. -/
def format_context_for_prompt (context : List CatalogueItem) : String :=
  if context.isEmpty then "No specific context available."
  else "**Available Content:**\n\n" ++ format_context_items 1 context

/-- One turn of the previous-conversation block: long answers keep their
first 400 and last 100 characters. -/
def history_turn_str (qa : String × String) : String :=
  "User: " ++ qa.1 ++ "\n" ++
  (if qa.2.length ≤ 500 then "Assistant: " ++ qa.2 ++ "\n\n"
   else "Assistant: " ++ strTake 400 qa.2 ++ "...[continued]..." ++
     strLastSlice 100 qa.2 ++ "\n\n")

/-- The previous-conversation block of the user prompt: header plus the
last 5 turns. -/
def history_block (chat_history : List (String × String)) : String :=
  (pyLastSlice 5 chat_history).foldl (fun acc qa => acc ++ history_turn_str qa)
    ("\n**Previous Conversation:**\n" ++
     "(Use this context to answer follow-up questions about previous recommendations)\n\n")

/-- Match of `movies?`, `films?`, `shows?` or `recommendations?` followed by
a word boundary at the start of the input: with the optional `s` the
boundary is checked after it, without it the boundary check fails anyway
whenever an `s` follows, so the greedy option is exact. -/
def pyUnitWordMatch (w : String) (s : List Char) : Bool :=
  if listStartsWith w.data s then
    match s.drop w.data.length with
    | 's' :: r2 => !(match r2 with | [] => false | c :: _ => pyIsWordChar c)
    | r1 => !(match r1 with | [] => false | c :: _ => pyIsWordChar c)
  else false

/-- Tail of the count pattern after its leading digit: the digit run, a
whitespace run and one of the unit words (the runs are determined: a digit
cannot start `\s*` + unit and whitespace cannot start a unit word). -/
def tryNumUnit (s : List Char) : Option Nat :=
  let ds := s.takeWhile Char.isDigit
  let r1 := s.dropWhile Char.isDigit
  let r2 := r1.dropWhile pyIsSpace
  if pyUnitWordMatch "movie" r2 || pyUnitWordMatch "film" r2 ||
      pyUnitWordMatch "show" r2 || pyUnitWordMatch "recommendation" r2 then
    some (digitsToNat ds)
  else none

/-- Leftmost-match scan of the count pattern
`\b(\d+)\s*(?:movies?|films?|shows?|recommendations?)\b`: a match can only
start at a digit preceded by a non-word character or the start of the
input. -/
def findNumberAux : Option Char → List Char → Option Nat
  | _, [] => none
  | prev, c :: rest =>
    if !(match prev with | none => false | some p => pyIsWordChar p)
        && c.isDigit then
      match tryNumUnit (c :: rest) with
      | some n => some n
      | none => findNumberAux (some c) rest
    else findNumberAux (some c) rest

/-- The requested-count extraction of `create_structured_prompt`:
`re.search(r'\b(\d+)\s*(?:movies?|films?|shows?|recommendations?)\b',
query.lower())`, returning `int(group(1))` when a match exists. -/
def find_requested_number (query : String) : Option Nat :=
  findNumberAux none (pyLower query).data

/-- The count instruction appended when the user gave no number. -/
def no_number_instruction : String :=
  "\n**CRITICAL**: The user did NOT specify a number. You MUST provide EXACTLY 5 recommendations. This is mandatory and not optional.\n"

/-- The count instruction appended when the user requested `n`
recommendations. -/
def requested_number_instruction (n : Nat) : String :=
  "\n**CRITICAL**: The user requested " ++ toString n ++
  " recommendations. You MUST provide EXACTLY " ++ toString n ++
  " recommendations.\n"

/-- The count-instruction branch of `create_structured_prompt`. -/
def count_instruction (query : String) : String :=
  match find_requested_number query with
  | none => no_number_instruction
  | some n => requested_number_instruction n

/-- The fixed closing sentences of the user prompt. -/
def prompt_tail : String :=
  "Please provide a helpful, engaging response following the guidelines above." ++
  " If the user is asking about previous recommendations (e.g., \x27how many\x27, \x27which ones\x27, \x27the movies above\x27), refer to the Previous Conversation section to answer accurately."

/-- The `user` component of
`ResponseTemplate.create_structured_prompt(query, context, chat_history,
response_type, user_profile, user_name)`: serialized context, optional user
name line, optional previous-conversation block, the current question, the
response type line, the count instruction for the two recommendation types,
and the fixed closing sentences.  The response type is auto-detected when
not supplied, exactly as in the source: `chosen_response_type` is that
auto-detection step. -/
def chosen_response_type (query : String) (context : List CatalogueItem)
    (response_type0 : Option ResponseType) : ResponseType :=
  match response_type0 with
  | none => detect_response_type query context
  | some t => t

/-- See `chosen_response_type` above: this is the `user` prompt proper. -/
def create_structured_prompt_user (query : String) (context : List CatalogueItem)
    (chat_history : List (String × String)) (response_type0 : Option ResponseType)
    (user_name : Option String) : String :=
  let response_type := chosen_response_type query context response_type0
  let up1 := format_context_for_prompt context
  let up2 :=
    match user_name with
    | some nm => up1 ++ ("\n**USER NAME:** " ++ nm ++ " (greet them naturally when appropriate)\n")
    | none => up1
  let up3 := if chat_history.isEmpty then up2 else up2 ++ history_block chat_history
  let up4 := up3 ++ ("\n**Current Question:**\n" ++ query ++ "\n\n")
  let up5 := up4 ++ ("**Response Type:** " ++ response_type.value ++ "\n")
  let up6 :=
    if response_type == ResponseType.movie_recommendation ||
        response_type == ResponseType.tv_show_recommendation then
      up5 ++ count_instruction query
    else up5
  up6 ++ prompt_tail

/-! Derived views of the reranker used to state its properties, plus the
concrete inputs of the scenarios analysed below. -/

/-- The hard-filter step of the reranker in isolation: drop candidates
matching a disliked genre (when any non-empty disliked genre exists). -/
def hard_filter (up : UserProfile) (l : List CatalogueItem) : List CatalogueItem :=
  let disliked_genres := (up.disliked_genres.filter (fun g => !(g == ""))).map pyLower
  if disliked_genres.isEmpty then l
  else l.filter (fun c => !(disliked_genres.any (fun d => pyIn d (pyLower c.genre))))

/-- The sort key the reranker computes for a candidate, with the cleaned
profile lists spelled out. -/
def rerank_key (up : UserProfile) (item : CatalogueItem) : List ℚ :=
  comprehensive_match_score
    ((up.favorite_genres.filter (fun g => !(g == ""))).map pyLower)
    ((up.favorite_actors.filter (fun a => !(a == ""))).map pyLower)
    (pyLower (up.language_preference.getD ""))
    item

/-- A candidate matches some favorite genre of the profile (the boolean at
the head of the sort key). -/
def has_fav_genre (up : UserProfile) (item : CatalogueItem) : Bool :=
  ((up.favorite_genres.filter (fun g => !(g == ""))).map pyLower).any
    (fun fav => pyIn fav (pyLower item.genre))

/-- The turns a sequence of add_message calls directs at one session, in
call order. -/
def sessionMessages (sid : String) (ops : List (String × String × String)) :
    List (String × String) :=
  (ops.filter (fun op => op.1 == sid)).map (fun op => (op.2.1, op.2.2))

/-- The rational 9/10, built structurally so that kernel evaluation never
has to normalise a fraction. -/
def qNineTenths : ℚ := ⟨9, 10, by norm_num, by norm_num⟩

/-- The rational 1/2, built structurally. -/
def qHalf : ℚ := ⟨1, 2, by norm_num, by norm_num⟩

/-- Scenario candidate A: a Drama with similarity score 0.9. -/
def exItemDrama : CatalogueItem := ⟨"A", "", "Drama", "", "Movie", "", "", "", qNineTenths⟩

/-- Scenario candidate B: an Action title with similarity score 0.5. -/
def exItemAction : CatalogueItem := ⟨"B", "", "Action", "", "Movie", "", "", "", qHalf⟩

/-- Scenario profile with `favoriteGenres = ["Action"]`. -/
def exProfileAction : UserProfile := ⟨["Action"], [], [], none⟩

/-- Scenario profile whose disliked-genres list holds one empty string. -/
def exProfileEmptyDislike : UserProfile := ⟨[], [""], [], none⟩

/-- A candidate whose genre is "Drama", with an integral score. -/
def exItemDrama1 : CatalogueItem := ⟨"A", "", "Drama", "", "Movie", "", "", "", 1⟩

/-- Scenario profile with `dislikedGenres = ["Horror"]`. -/
def exProfileNoHorror : UserProfile := ⟨[], ["Horror"], [], none⟩

/-- A candidate whose genre is "Horror". -/
def exItemHorror : CatalogueItem := ⟨"H", "", "Horror", "", "Movie", "", "", "", 1⟩

/-- The single-turn history of the title-extraction scenario. -/
def exHistoryTwoTitles : List (String × String) :=
  [("q", "**Title**: Inception\n**Title**: **The Matrix**")]

/-- A single-turn history whose only extractable title has length 1. -/
def exHistoryShortTitle : List (String × String) :=
  [("q", "**Title**: **A**")]

/-- A search result with title "A" and full payload defaults. -/
def exResultA : SearchResult := ⟨some ⟨some "A", none, none, none, none, none, none, none⟩, 1⟩

/-- A search result with title "B". -/
def exResultB : SearchResult := ⟨some ⟨some "B", none, none, none, none, none, none, none⟩, 1⟩

/-- A search result with title "C". -/
def exResultC : SearchResult := ⟨some ⟨some "C", none, none, none, none, none, none, none⟩, 1⟩

/-- Twelve add_message calls to the session "s". -/
def exOpsTwelve : List (String × String × String) :=
  [("s", "q1", "a1"), ("s", "q2", "a2"), ("s", "q3", "a3"), ("s", "q4", "a4"),
   ("s", "q5", "a5"), ("s", "q6", "a6"), ("s", "q7", "a7"), ("s", "q8", "a8"),
   ("s", "q9", "a9"), ("s", "q10", "a10"), ("s", "q11", "a11"), ("s", "q12", "a12")]

/-- A store holding one session, used to probe absent-session behaviour. -/
def exMemoryOneSession : ConversationMemory := ⟨[("other", [("x", "y")])], 10⟩

/-! Lemmas about the string primitives. -/

theorem listStartsWith_self_append (p t : List Char) :
    listStartsWith p (p ++ t) = true := by
  induction p with
  | nil => rfl
  | cons c cs ih => simp [listStartsWith, ih]

theorem occursIn_self_append (p t : List Char) : occursIn p (p ++ t) = true := by
  cases p with
  | nil =>
    cases t with
    | nil => rfl
    | cons c r => simp [occursIn, listStartsWith]
  | cons a as =>
    have h := listStartsWith_self_append (a :: as) t
    simp only [List.cons_append] at h ⊢
    simp [occursIn, h]

theorem occursIn_append_left (a p s : List Char) (h : occursIn p s = true) :
    occursIn p (a ++ s) = true := by
  induction a with
  | nil => simpa using h
  | cons x xs ih => simp [occursIn, ih]

theorem pyIn_sandwich (pre mid post : String) : pyIn mid (pre ++ mid ++ post) = true := by
  unfold pyIn
  rw [String.data_append, String.data_append, List.append_assoc]
  exact occursIn_append_left _ _ _ (occursIn_self_append _ _)

/-! Lemmas about the lexicographic comparison and the stable sort. -/

theorem lexGt_irrefl (a : List ℚ) : lexGt a a = false := by
  induction a with
  | nil => rfl
  | cons x xs ih => simp [lexGt, ih]

theorem lexGt_asymm {a b : List ℚ} (h : lexGt a b = true) : lexGt b a = false := by
  induction a generalizing b with
  | nil => simp [lexGt] at h
  | cons x xs ih =>
    cases b with
    | nil => rfl
    | cons y ys =>
      simp only [lexGt] at h ⊢
      by_cases h1 : y < x
      · have h2 : ¬ x < y := lt_asymm h1
        simp [h1, h2]
      · by_cases h2 : x < y
        · simp [h1, h2] at h
        · simp only [h1, h2, if_false] at h ⊢
          exact ih h

theorem lexGt_false_trans {a b c : List ℚ} (hab : lexGt a b = false)
    (hbc : lexGt b c = false) : lexGt a c = false := by
  induction a generalizing b c with
  | nil => rfl
  | cons x xs ih =>
    cases b with
    | nil => simp [lexGt] at hab
    | cons y ys =>
      cases c with
      | nil => simp [lexGt] at hbc
      | cons z zs =>
        simp only [lexGt] at hab hbc ⊢
        by_cases hyx : y < x
        · simp [hyx] at hab
        · by_cases hzy : z < y
          · simp [hzy] at hbc
          · have hxy : x ≤ y := not_lt.mp hyx
            have hyz : y ≤ z := not_lt.mp hzy
            have hzx : ¬ z < x := not_lt.mpr (le_trans hxy hyz)
            simp only [hzx, if_false]
            by_cases hxz : x < z
            · simp [hxz]
            · have hx_eq : x = z := le_antisymm (le_trans hxy hyz) (not_lt.mp hxz)
              have hy_eq : x = y := le_antisymm hxy (by rw [hx_eq]; exact hyz)
              simp only [hxz, if_false]
              simp only [hyx, hy_eq.symm ▸ hxy, if_false] at hab
              simp only [hzy, if_false] at hbc
              have hab' : lexGt xs ys = false := by
                by_cases hxy' : x < y
                · exact absurd hxy' (by rw [hy_eq]; exact lt_irrefl y)
                · simpa [hxy'] using hab
              have hbc' : lexGt ys zs = false := by
                by_cases hyz' : y < z
                · exact absurd hyz' (by rw [← hy_eq, hx_eq]; exact lt_irrefl z)
                · simpa [hyz'] using hbc
              exact ih hab' hbc'

theorem mem_insertScoreDesc {key : α → List ℚ} {x a : α} {l : List α} :
    a ∈ insertScoreDesc key x l ↔ a = x ∨ a ∈ l := by
  induction l with
  | nil => simp [insertScoreDesc]
  | cons y ys ih =>
    cases hb : lexGt (key y) (key x) with
    | false =>
      simp only [insertScoreDesc, hb, Bool.false_eq_true, if_false, List.mem_cons]
    | true =>
      simp only [insertScoreDesc, hb, if_true, List.mem_cons, ih]
      tauto

theorem mem_sortScoreDesc {key : α → List ℚ} {a : α} {l : List α} :
    a ∈ sortScoreDesc key l ↔ a ∈ l := by
  induction l with
  | nil => simp [sortScoreDesc]
  | cons x xs ih =>
    simp only [sortScoreDesc, mem_insertScoreDesc, ih, List.mem_cons]

theorem insertScoreDesc_split (key : α → List ℚ) (x : α) (l : List α) :
    ∃ l1 l2, l = l1 ++ l2 ∧ insertScoreDesc key x l = l1 ++ x :: l2 ∧
      ∀ y ∈ l1, lexGt (key y) (key x) = true := by
  induction l with
  | nil => exact ⟨[], [], rfl, rfl, by simp⟩
  | cons y ys ih =>
    by_cases h : lexGt (key y) (key x) = true
    · obtain ⟨l1, l2, h1, h2, h3⟩ := ih
      refine ⟨y :: l1, l2, by simp [h1], ?_, ?_⟩
      · simp [insertScoreDesc, h, h2]
      · intro z hz
        rcases List.mem_cons.mp hz with hz | hz
        · exact hz ▸ h
        · exact h3 z hz
    · refine ⟨[], y :: ys, rfl, ?_, by simp⟩
      simp [insertScoreDesc, h]

theorem pairwise_insertScoreDesc {key : α → List ℚ} {x : α} {l : List α}
    (hl : List.Pairwise (fun a b => lexGt (key b) (key a) = false) l) :
    List.Pairwise (fun a b => lexGt (key b) (key a) = false)
      (insertScoreDesc key x l) := by
  induction l with
  | nil => simp [insertScoreDesc]
  | cons y ys ih =>
    rcases List.pairwise_cons.mp hl with ⟨hy, hys⟩
    by_cases h : lexGt (key y) (key x) = true
    · simp only [insertScoreDesc, h, if_true]
      refine List.pairwise_cons.mpr ⟨?_, ih hys⟩
      intro z hz
      rcases mem_insertScoreDesc.mp hz with hz | hz
      · rw [hz]; exact lexGt_asymm h
      · exact hy z hz
    · simp only [insertScoreDesc, h, if_false]
      have hyx : lexGt (key y) (key x) = false := by
        cases hb : lexGt (key y) (key x)
        · rfl
        · exact absurd hb h
      refine List.pairwise_cons.mpr ⟨?_, hl⟩
      intro z hz
      rcases List.mem_cons.mp hz with hz | hz
      · rw [hz]; exact hyx
      · exact lexGt_false_trans (hy z hz) hyx

theorem pairwise_sortScoreDesc (key : α → List ℚ) (l : List α) :
    List.Pairwise (fun a b => lexGt (key b) (key a) = false)
      (sortScoreDesc key l) := by
  induction l with
  | nil => simp [sortScoreDesc]
  | cons x xs ih => exact pairwise_insertScoreDesc ih

theorem filter_insertScoreDesc (key : α → List ℚ) (x : α) (l : List α) (k : List ℚ) :
    (insertScoreDesc key x l).filter (fun a => decide (key a = k)) =
      if key x = k then x :: l.filter (fun a => decide (key a = k))
      else l.filter (fun a => decide (key a = k)) := by
  obtain ⟨l1, l2, h1, h2, h3⟩ := insertScoreDesc_split key x l
  have hl1 : l1.filter (fun a => decide (key a = k)) = l1.filter (fun a => decide (key a = k)) := rfl
  by_cases hx : key x = k
  · have hl1nil : l1.filter (fun a => decide (key a = k)) = [] := by
      rw [List.filter_eq_nil_iff]
      intro y hy
      have hgt := h3 y hy
      have hne : key y ≠ key x := by
        intro he
        rw [he] at hgt
        exact absurd hgt (by simp [lexGt_irrefl])
      simp only [decide_eq_true_eq]
      rw [hx] at hne
      exact hne
    rw [h2, List.filter_append, hl1nil, h1, List.filter_append, hl1nil]
    simp [hx]
  · rw [h2, List.filter_append, h1, List.filter_append]
    simp [hx]

theorem filter_sortScoreDesc (key : α → List ℚ) (l : List α) (k : List ℚ) :
    (sortScoreDesc key l).filter (fun a => decide (key a = k)) =
      l.filter (fun a => decide (key a = k)) := by
  induction l with
  | nil => rfl
  | cons x xs ih =>
    simp only [sortScoreDesc]
    rw [filter_insertScoreDesc, ih]
    by_cases hx : key x = k
    · simp [hx]
    · simp [hx]

/-! Lemmas about the conversation store. -/

theorem find?_setSession_self (l : List (String × List (String × String)))
    (sid : String) (v : List (String × String)) :
    (setSession l sid v).find? (fun kv => kv.1 == sid) = some (sid, v) := by
  induction l with
  | nil => simp [setSession, List.find?]
  | cons kv rest ih =>
    cases hb : (kv.1 == sid) with
    | true => simp [setSession, hb, List.find?]
    | false => simp [setSession, hb, List.find?, ih]

theorem find?_setSession_ne (l : List (String × List (String × String)))
    (sid sid' : String) (v : List (String × String)) (h : sid' ≠ sid) :
    (setSession l sid v).find? (fun kv => kv.1 == sid') =
      l.find? (fun kv => kv.1 == sid') := by
  have hss : (sid == sid') = false := by
    simp only [beq_eq_false_iff_ne, ne_eq]
    exact fun he => h he.symm
  induction l with
  | nil => simp [setSession, List.find?, hss]
  | cons kv rest ih =>
    cases hb : (kv.1 == sid) with
    | true =>
      have hkv : kv.1 = sid := by simpa using hb
      have hkv' : (kv.1 == sid') = false := by
        simp only [beq_eq_false_iff_ne, ne_eq, hkv]
        exact fun he => h he.symm
      simp [setSession, hb, List.find?, hss, hkv']
    | false => simp [setSession, hb, List.find?, ih]

theorem get_history_add_self (m : ConversationMemory) (sid q a : String) :
    (m.add_message sid q a).get_history sid =
      (if m.max_history < (m.get_history sid ++ [(q, a)]).length
       then pyLastSlice m.max_history (m.get_history sid ++ [(q, a)])
       else m.get_history sid ++ [(q, a)]) := by
  simp only [ConversationMemory.add_message, ConversationMemory.get_history,
    lookupSession, find?_setSession_self, Option.map_some', Option.getD_some]

theorem get_history_add_ne (m : ConversationMemory) (sid sid' q a : String)
    (h : sid' ≠ sid) :
    (m.add_message sid q a).get_history sid' = m.get_history sid' := by
  simp only [ConversationMemory.add_message, ConversationMemory.get_history,
    lookupSession, find?_setSession_ne _ _ _ _ h]

theorem trim_pyLastSlice_ten (l : List α) (x : α) :
    (if 10 < (pyLastSlice 10 l ++ [x]).length
     then pyLastSlice 10 (pyLastSlice 10 l ++ [x])
     else pyLastSlice 10 l ++ [x]) = pyLastSlice 10 (l ++ [x]) := by
  simp only [pyLastSlice, if_neg (by omega : ¬ (10 : Nat) = 0)]
  rcases le_or_lt l.length 9 with hle | hgt
  · have h0 : l.length - 10 = 0 := by omega
    have h1 : (l ++ [x]).length - 10 = 0 := by
      simp only [List.length_append, List.length_singleton]; omega
    rw [h0, List.drop_zero, h1, List.drop_zero]
    rw [if_neg]
    simp only [List.length_append, List.length_singleton]
    omega
  · have hd : (l.drop (l.length - 10)).length = 10 := by
      simp only [List.length_drop]; omega
    have hcond : 10 < (l.drop (l.length - 10) ++ [x]).length := by
      simp only [List.length_append, List.length_singleton, hd]; omega
    rw [if_pos hcond]
    have h2 : (l.drop (l.length - 10) ++ [x]).length - 10 = 1 := by
      simp only [List.length_append, List.length_singleton, hd]
    rw [h2]
    have h3 : (1 : Nat) ≤ (l.drop (l.length - 10)).length := by omega
    rw [List.drop_append_of_le_length h3, List.drop_drop]
    have h4 : (l ++ [x]).length - 10 = l.length - 10 + 1 := by
      simp only [List.length_append, List.length_singleton]; omega
    rw [h4]
    have h5 : l.length - 10 + 1 ≤ l.length := by omega
    rw [List.drop_append_of_le_length h5]

theorem c3_aux (ops : List (String × String × String)) :
    ∀ (m : ConversationMemory) (f : String → List (String × String)),
    m.max_history = 10 →
    (∀ sid, m.get_history sid = pyLastSlice 10 (f sid)) →
    ∀ sid,
      (ops.foldl (fun m op => m.add_message op.1 op.2.1 op.2.2) m).get_history sid
        = pyLastSlice 10 (f sid ++ sessionMessages sid ops) := by
  induction ops with
  | nil =>
    intro m f _ hf sid
    simp [sessionMessages, hf]
  | cons op rest ih =>
    intro m f hmax hf sid
    simp only [List.foldl_cons]
    have hmax' : (m.add_message op.1 op.2.1 op.2.2).max_history = 10 := hmax
    have hf' : ∀ sid',
        (m.add_message op.1 op.2.1 op.2.2).get_history sid'
          = pyLastSlice 10 (if sid' = op.1 then f sid' ++ [(op.2.1, op.2.2)] else f sid') := by
      intro sid'
      by_cases heq : sid' = op.1
      · subst heq
        rw [get_history_add_self, hmax, hf op.1, if_pos rfl]
        exact trim_pyLastSlice_ten (f op.1) (op.2.1, op.2.2)
      · rw [get_history_add_ne _ _ _ _ _ heq, hf sid', if_neg heq]
    have h := ih (m.add_message op.1 op.2.1 op.2.2)
      (fun s => if s = op.1 then f s ++ [(op.2.1, op.2.2)] else f s) hmax' hf' sid
    rw [h]
    by_cases heq : sid = op.1
    · have hb : (op.1 == sid) = true := by simp [heq]
      simp only [if_pos heq, sessionMessages, List.filter_cons, hb, if_true,
        List.map_cons]
      rw [List.append_assoc, List.singleton_append]
    · have hb : (op.1 == sid) = false := by
        simp only [beq_eq_false_iff_ne, ne_eq]
        exact fun he => heq he.symm
      simp only [if_neg heq, sessionMessages, List.filter_cons, hb,
        Bool.false_eq_true, if_false]

/-- C3: for every session id and every sequence of add_message calls against
the cap-10 store, the stored history is exactly the last min(n, 10) turns
addressed to that session, oldest first, and hence never exceeds 10 turns;
in particular, adding 12 messages to one session leaves exactly the last 10,
oldest first. -/
theorem c3_session_history_fifo_cap :
    (∀ (ops : List (String × String × String)) (sid : String),
      (ops.foldl (fun m op => m.add_message op.1 op.2.1 op.2.2) initialMemory).get_history sid
        = pyLastSlice 10 (sessionMessages sid ops)
      ∧ ((ops.foldl (fun m op => m.add_message op.1 op.2.1 op.2.2) initialMemory).get_history sid).length ≤ 10)
    ∧ (exOpsTwelve.foldl (fun m op => m.add_message op.1 op.2.1 op.2.2) initialMemory).get_history "s"
        = [("q3", "a3"), ("q4", "a4"), ("q5", "a5"), ("q6", "a6"), ("q7", "a7"),
           ("q8", "a8"), ("q9", "a9"), ("q10", "a10"), ("q11", "a11"), ("q12", "a12")] := by
  constructor
  · intro ops sid
    have h := c3_aux ops initialMemory (fun _ => []) rfl (fun _ => rfl) sid
    simp only [List.nil_append] at h
    refine ⟨h, ?_⟩
    rw [h]
    simp only [pyLastSlice, if_neg (by omega : ¬ (10 : Nat) = 0), List.length_drop]
    omega
  · decide

/-- C10: an absent session id reads as the empty history (and reading does
not create an entry, the store being untouched), clear_session on an absent
id returns the store unchanged, and add_message is what creates a session
entry. -/
theorem c10_absent_session_behavior :
    (∀ (m : ConversationMemory) (sid : String), lookupSession m sid = none →
      m.get_history sid = [])
    ∧ (∀ (m : ConversationMemory) (sid : String), lookupSession m sid = none →
      m.clear_session sid = m)
    ∧ (∀ (m : ConversationMemory) (sid q a : String),
      (lookupSession (m.add_message sid q a) sid).isSome = true) := by
  refine ⟨?_, ?_, ?_⟩
  · intro m sid h
    simp [ConversationMemory.get_history, h]
  · intro m sid h
    have hf : m.conversations.find? (fun kv => kv.1 == sid) = none :=
      Option.map_eq_none'.mp h
    have hall := List.find?_eq_none.mp hf
    have hany : m.conversations.any (fun kv => kv.1 == sid) = false := by
      cases hb : m.conversations.any (fun kv => kv.1 == sid)
      · rfl
      · obtain ⟨x, hx, hpx⟩ := List.any_eq_true.mp hb
        exact absurd hpx (hall x hx)
    simp [ConversationMemory.clear_session, hany]
  · intro m sid q a
    simp [ConversationMemory.add_message, lookupSession, find?_setSession_self]

/-- Witness for C10 at a store holding one other session. -/
theorem c10_absent_session_behavior_witness :
    lookupSession exMemoryOneSession "missing" = none
    ∧ exMemoryOneSession.get_history "missing" = []
    ∧ exMemoryOneSession.clear_session "missing" = exMemoryOneSession
    ∧ (lookupSession (exMemoryOneSession.add_message "missing" "q" "a") "missing").isSome = true := by
  refine ⟨by decide, ?_, ?_, ?_⟩
  · exact c10_absent_session_behavior.1 _ _ (by decide)
  · exact c10_absent_session_behavior.2.1 _ _ (by decide)
  · exact c10_absent_session_behavior.2.2 _ _ _ _

/-- C4: when the normalisation call fails, parse_query_with_llm returns the
original query text paired with the local regex parser's filters; the
fallback is total, so no exception escapes to the caller. -/
theorem c4_llm_failure_falls_back_to_regex :
    ∀ (e : String) (query : String),
      parse_query_with_llm (Except.error e) query = (query, parse_query_regex query) := by
  intro e query
  rfl

/-- Witness for C4 at a concrete failing call and query. -/
theorem c4_llm_failure_falls_back_to_regex_witness :
    parse_query_with_llm (Except.error "timeout") "korean drama 2020"
      = ("korean drama 2020",
         (⟨some "South Korea", none, some 2020, some "Drama"⟩ : Filters)) := by
  rw [c4_llm_failure_falls_back_to_regex]
  decide

/-- Short in-scope queries: whenever the query has at most 5 tokens and no
off-topic keyword occurs in its lower-casing, is_movie_related returns true
(whatever the keyword and pattern checks before the final default do). -/
theorem is_movie_related_short (q : String)
    (htok : (pySplitWs q).length ≤ 5)
    (hkw : non_movie_keywords.any (fun kw => pyIn kw (pyLower q)) = false) :
    is_movie_related q = true := by
  simp [is_movie_related, hkw, htok]

/-- C8: every query with at most 5 whitespace-delimited tokens and no
off-topic keyword in its lower-casing is classified in scope. -/
theorem c8_short_query_default_in_scope :
    ∀ (q : String), (pySplitWs q).length ≤ 5 →
      non_movie_keywords.any (fun kw => pyIn kw (pyLower q)) = false →
      is_movie_related q = true := by
  intro q htok hkw
  exact is_movie_related_short q htok hkw

/-- Witness for C8: the bare title "Inception" and the empty query are both
in scope. -/
theorem c8_short_query_default_in_scope_witness :
    is_movie_related "Inception" = true ∧ is_movie_related "" = true := by
  constructor
  · exact c8_short_query_default_in_scope "Inception" (by decide) (by decide)
  · exact c8_short_query_default_in_scope "" (by decide) (by decide)

/-- C9 counterexample: the short query "About January maybe" names a month,
yet is_movie_related accepts it — the month entries of the off-topic list
are capitalised while the query is lower-cased before the substring test,
so they can never match. -/
theorem c9_month_query_not_rejected :
    is_movie_related "About January maybe" = true := by
  exact is_movie_related_short "About January maybe" (by decide) (by decide)

/-- C9 as amended: when no movie-domain keyword occurs and some entry of
the off-topic list occurs verbatim in the lower-cased query,
is_movie_related rejects the query; but the month names are stored
capitalised and the query is lower-cased, so a query naming a month is not
rejected ("About January maybe" is accepted). -/
theorem c9_offtopic_keyword_rejection :
    (∀ (q : String),
      movie_keywords.any (fun kw => pyIn kw (pyLower q)) = false →
      non_movie_keywords.any (fun kw => pyIn kw (pyLower q)) = true →
      is_movie_related q = false)
    ∧ is_movie_related "About January maybe" = true := by
  constructor
  · intro q hA hB
    simp [is_movie_related, hA, hB]
  · exact is_movie_related_short "About January maybe" (by decide) (by decide)

/-- Witness for C9: "the weather today" is rejected through the off-topic
keyword "weather", while the month query is accepted. -/
theorem c9_offtopic_keyword_rejection_witness :
    is_movie_related "the weather today" = false
    ∧ is_movie_related "About January maybe" = true := by
  constructor
  · exact c9_offtopic_keyword_rejection.1 "the weather today" (by decide) (by decide)
  · exact c9_offtopic_keyword_rejection.2

/-! The reranker: hard exclusion of disliked genres and the composite sort
key. -/

theorem rerank_eq_sort_filter (up : UserProfile) (l : List CatalogueItem) :
    rerank (some up) l = sortScoreDesc (rerank_key up) (hard_filter up l) := rfl

/-- C1 as amended: a candidate surviving rerank never has a genre containing
(case-insensitively) a non-empty entry of the profile's disliked genres —
the disliked candidates are removed outright, not down-ranked. -/
theorem c1_rerank_hard_filters_disliked_genres :
    ∀ (up : UserProfile) (l : List CatalogueItem) (c : CatalogueItem) (d : String),
      c ∈ rerank (some up) l → d ∈ up.disliked_genres → d ≠ "" →
      pyIn (pyLower d) (pyLower c.genre) = false := by
  intro up l c d hc hd hne
  rw [rerank_eq_sort_filter] at hc
  have hc2 := mem_sortScoreDesc.mp hc
  have hdl : pyLower d ∈ (up.disliked_genres.filter (fun g => !(g == ""))).map pyLower := by
    refine List.mem_map.mpr ⟨d, ?_, rfl⟩
    refine List.mem_filter.mpr ⟨hd, ?_⟩
    simp [hne]
  have hemp : ((up.disliked_genres.filter (fun g => !(g == ""))).map pyLower).isEmpty = false := by
    cases hb : ((up.disliked_genres.filter (fun g => !(g == ""))).map pyLower).isEmpty
    · rfl
    · exfalso
      rw [List.isEmpty_iff] at hb
      rw [hb] at hdl
      exact List.not_mem_nil _ hdl
  unfold hard_filter at hc2
  simp only [hemp, Bool.false_eq_true, if_false] at hc2
  have hpred := (List.mem_filter.mp hc2).2
  cases hres : pyIn (pyLower d) (pyLower c.genre)
  · rfl
  · exfalso
    have hany : ((up.disliked_genres.filter (fun g => !(g == ""))).map pyLower).any
        (fun g => pyIn g (pyLower c.genre)) = true :=
      List.any_eq_true.mpr ⟨pyLower d, hdl, hres⟩
    rw [hany] at hpred
    simp at hpred

/-- C1 counterexample: with a profile whose disliked list holds the empty
string, rerank returns a candidate whose genre does contain that entry as a
(case-insensitive) substring, refuting the claim quantified over all
entries. -/
theorem c1_empty_disliked_entry_counterexample :
    ¬ (∀ (up : UserProfile) (l : List CatalogueItem) (c : CatalogueItem) (d : String),
        c ∈ rerank (some up) l → d ∈ up.disliked_genres →
        pyIn (pyLower d) (pyLower c.genre) = false) := by
  intro h
  have := h exProfileEmptyDislike [exItemDrama1] exItemDrama1 "" (by decide) (by decide)
  exact absurd this (by decide)

/-- Witness for C1: with `dislikedGenres = ["Horror"]` the Drama candidate
survives and its genre does not contain "horror". -/
theorem c1_rerank_hard_filters_disliked_genres_witness :
    exItemDrama1 ∈ rerank (some exProfileNoHorror) [exItemHorror, exItemDrama1]
    ∧ pyIn (pyLower "Horror") (pyLower exItemDrama1.genre) = false := by
  refine ⟨by decide, ?_⟩
  exact c1_rerank_hard_filters_disliked_genres exProfileNoHorror
    [exItemHorror, exItemDrama1] exItemDrama1 "Horror" (by decide) (by decide)
    (by decide)

/-! The composite-key ordering of the reranker. -/

theorem any_iff_filter_pos {α} (p : α → Bool) (l : List α) :
    l.any p = true ↔ 0 < (l.filter p).length := by
  rw [List.any_eq_true, List.length_pos, Ne, List.filter_eq_nil_iff]
  push_neg
  simp

theorem lexGt_of_flag (up : UserProfile) (a b : CatalogueItem)
    (ha : has_fav_genre up a = false) (hb : has_fav_genre up b = true) :
    lexGt (rerank_key up b) (rerank_key up a) = true := by
  simp only [has_fav_genre] at ha hb
  have hbpos := (any_iff_filter_pos _ _).mp hb
  have hazero : ¬ 0 < ((((up.favorite_genres.filter (fun g => !(g == ""))).map pyLower).filter
      (fun fav => pyIn fav (pyLower a.genre))).length) := by
    intro hp
    have := (any_iff_filter_pos _ _).mpr hp
    rw [this] at ha
    simp at ha
  simp only [rerank_key, comprehensive_match_score]
  rw [if_pos hbpos, if_neg hazero]
  simp [lexGt]

/-- C5: the scenario [A: Drama, 0.9; B: Action, 0.5] with favorite genre
Action reranks to [B, A]; in general the reranked list is descending in the
composite key (hasGenreMatch, genreMatchCount, hasActorMatch,
actorMatchCount, countryMatch, similarityScore), a candidate matching a
favorite genre therefore precedes every non-matching one regardless of raw
score, and candidates with exactly equal keys keep the hard-filter list's
order (stability). -/
theorem c5_rerank_composite_key_order :
    (rerank (some exProfileAction) [exItemDrama, exItemAction]
        = [exItemAction, exItemDrama]
      ∧ exItemDrama.score = 9/10 ∧ exItemAction.score = 1/2)
    ∧ (∀ (up : UserProfile) (l : List CatalogueItem),
        List.Pairwise (fun x y => lexGt (rerank_key up y) (rerank_key up x) = false)
          (rerank (some up) l))
    ∧ (∀ (up : UserProfile) (l : List CatalogueItem),
        List.Pairwise (fun x y => has_fav_genre up y = true → has_fav_genre up x = true)
          (rerank (some up) l))
    ∧ (∀ (up : UserProfile) (l : List CatalogueItem) (k : List ℚ),
        (rerank (some up) l).filter (fun c => decide (rerank_key up c = k))
          = (hard_filter up l).filter (fun c => decide (rerank_key up c = k))) := by
  refine ⟨⟨by decide, ?_, ?_⟩, ?_, ?_, ?_⟩
  · show qNineTenths = 9/10
    rw [qNineTenths, Rat.mk'_eq_divInt, Rat.divInt_eq_div]
    norm_num
  · show qHalf = 1/2
    rw [qHalf, Rat.mk'_eq_divInt, Rat.divInt_eq_div]
    norm_num
  · intro up l
    rw [rerank_eq_sort_filter]
    exact pairwise_sortScoreDesc _ _
  · intro up l
    rw [rerank_eq_sort_filter]
    refine List.Pairwise.imp ?_ (pairwise_sortScoreDesc (rerank_key up) (hard_filter up l))
    intro a b hab hbflag
    cases haflag : has_fav_genre up a
    · exfalso
      have hgt := lexGt_of_flag up a b haflag hbflag
      rw [hgt] at hab
      cases hab
    · rfl
  · intro up l k
    rw [rerank_eq_sort_filter]
    exact filter_sortScoreDesc _ _ _

/-- Witness for C5 at the scenario inputs. -/
theorem c5_rerank_composite_key_order_witness :
    rerank (some exProfileAction) [exItemDrama, exItemAction]
      = [exItemAction, exItemDrama]
    ∧ List.Pairwise
        (fun x y => has_fav_genre exProfileAction y = true →
          has_fav_genre exProfileAction x = true)
        (rerank (some exProfileAction) [exItemDrama, exItemAction]) :=
  ⟨c5_rerank_composite_key_order.1.1,
   c5_rerank_composite_key_order.2.2.1 exProfileAction [exItemDrama, exItemAction]⟩

/-! Exclusion and de-duplication in the candidate-building loops. -/

theorem format_context_not_excluded :
    ∀ (rs : List SearchResult) (ex : List String) (c : CatalogueItem),
      c ∈ format_context rs ex → ex.contains (pyLower c.title) = false := by
  intro rs
  induction rs with
  | nil =>
    intro ex c hc
    simp [format_context] at hc
  | cons r rest ih =>
    intro ex c hc
    obtain ⟨pl, sc⟩ := r
    cases pl with
    | none =>
      simp only [format_context] at hc
      exact ih ex c hc
    | some payload =>
      simp only [format_context] at hc
      cases hex : ex.contains (pyLower (payload.title.getD "Unknown")) with
      | true =>
        rw [hex] at hc
        simp only [if_true] at hc
        exact ih ex c hc
      | false =>
        rw [hex] at hc
        simp only [Bool.false_eq_true, if_false, List.mem_cons] at hc
        rcases hc with hceq | hc
        · subst hceq
          simpa [payload_to_item] using hex
        · exact ih ex c hc

theorem merge_broader_not_excluded :
    ∀ (rs : List SearchResult) (ctx : List CatalogueItem) (ex : List String),
      (∀ c ∈ ctx, ex.contains (pyLower c.title) = false) →
      ∀ c ∈ merge_broader ctx rs ex, ex.contains (pyLower c.title) = false := by
  intro rs
  induction rs with
  | nil =>
    intro ctx ex hctx c hc
    simp only [merge_broader] at hc
    exact hctx c hc
  | cons r rest ih =>
    intro ctx ex hctx c hc
    obtain ⟨pl, sc⟩ := r
    simp only [merge_broader] at hc
    by_cases hlen : 5 ≤ ctx.length
    · rw [if_pos hlen] at hc
      exact hctx c hc
    · rw [if_neg hlen] at hc
      cases pl with
      | none => exact ih ctx ex hctx c hc
      | some payload =>
        simp only at hc
        cases hex : ex.contains (pyLower (payload.title.getD "Unknown")) with
        | true =>
          rw [hex] at hc
          simp only [if_true] at hc
          exact ih ctx ex hctx c hc
        | false =>
          rw [hex] at hc
          simp only [Bool.false_eq_true, if_false] at hc
          cases hdup : ctx.any
              (fun c0 => pyLower c0.title == pyLower (payload.title.getD "Unknown")) with
          | true =>
            rw [hdup] at hc
            simp only [if_true] at hc
            exact ih ctx ex hctx c hc
          | false =>
            rw [hdup] at hc
            simp only [Bool.false_eq_true, if_false] at hc
            refine ih (ctx ++ [payload_to_item payload sc]) ex ?_ c hc
            intro c0 hc0
            rcases List.mem_append.mp hc0 with h0 | h0
            · exact hctx c0 h0
            · have h1 := List.mem_singleton.mp h0
              subst h1
              simpa [payload_to_item] using hex

theorem distinctTitles_snoc (ctx : List CatalogueItem) (x : CatalogueItem)
    (hctx : distinctTitles ctx = true)
    (hx : ctx.any (fun c => pyLower c.title == pyLower x.title) = false) :
    distinctTitles (ctx ++ [x]) = true := by
  induction ctx with
  | nil => simp [distinctTitles]
  | cons c0 rest ih =>
    simp only [distinctTitles, Bool.and_eq_true, Bool.not_eq_true'] at hctx
    obtain ⟨h1, h2⟩ := hctx
    simp only [List.any_cons, Bool.or_eq_false_iff] at hx
    obtain ⟨hx0, hxr⟩ := hx
    simp only [List.cons_append, distinctTitles, Bool.and_eq_true, Bool.not_eq_true']
    refine ⟨?_, ih h2 hxr⟩
    show ((rest ++ [x]).any fun d => pyLower d.title == pyLower c0.title) = false
    rw [List.any_append, h1]
    simp only [List.any_cons, List.any_nil, Bool.or_false, Bool.false_or]
    rw [beq_eq_false_iff_ne] at hx0 ⊢
    exact fun he => hx0 he.symm

theorem merge_broader_distinct :
    ∀ (rs : List SearchResult) (ctx : List CatalogueItem) (ex : List String),
      distinctTitles ctx = true → distinctTitles (merge_broader ctx rs ex) = true := by
  intro rs
  induction rs with
  | nil =>
    intro ctx ex hctx
    simpa only [merge_broader] using hctx
  | cons r rest ih =>
    intro ctx ex hctx
    obtain ⟨pl, sc⟩ := r
    simp only [merge_broader]
    by_cases hlen : 5 ≤ ctx.length
    · rw [if_pos hlen]
      exact hctx
    · rw [if_neg hlen]
      cases pl with
      | none => exact ih ctx ex hctx
      | some payload =>
        simp only
        cases hex : ex.contains (pyLower (payload.title.getD "Unknown")) with
        | true =>
          simp only [if_true]
          exact ih ctx ex hctx
        | false =>
          simp only [Bool.false_eq_true, if_false]
          cases hdup : ctx.any
              (fun c0 => pyLower c0.title == pyLower (payload.title.getD "Unknown")) with
          | true =>
            simp only [if_true]
            exact ih ctx ex hctx
          | false =>
            simp only [Bool.false_eq_true, if_false]
            refine ih (ctx ++ [payload_to_item payload sc]) ex ?_
            exact distinctTitles_snoc ctx (payload_to_item payload sc) hctx
              (by simpa [payload_to_item] using hdup)

/-- C7 as amended: every candidate-building loop drops candidates whose
lower-cased title is in the exclusion set, and the supplementary merge
loops additionally skip titles already present in the accumulated context,
preserving its freedom from duplicates; the primary pass alone does not
de-duplicate within its batch. -/
theorem c7_exclusion_and_merge_dedup :
    (∀ (rs : List SearchResult) (ex : List String) (c : CatalogueItem),
      c ∈ format_context rs ex → ex.contains (pyLower c.title) = false)
    ∧ (∀ (rs : List SearchResult) (ctx : List CatalogueItem) (ex : List String),
      (∀ c ∈ ctx, ex.contains (pyLower c.title) = false) →
      ∀ c ∈ merge_broader ctx rs ex, ex.contains (pyLower c.title) = false)
    ∧ (∀ (rs : List SearchResult) (ctx : List CatalogueItem) (ex : List String),
      distinctTitles ctx = true → distinctTitles (merge_broader ctx rs ex) = true) :=
  ⟨format_context_not_excluded, merge_broader_not_excluded, merge_broader_distinct⟩

/-- C7 counterexample: the primary filtering pass keeps two candidates with
the same title, so the claim that the filtered batch never repeats a title
fails. -/
theorem c7_primary_pass_keeps_duplicates :
    (format_context [exResultA, exResultA] []).map (fun c => c.title) = ["A", "A"]
    ∧ distinctTitles (format_context [exResultA, exResultA] []) = false := by
  exact ⟨by decide, by decide⟩

/-- Witness for C7: merging a broader batch into an exclusion-respecting
context keeps it exclusion-respecting and duplicate-free. -/
theorem c7_exclusion_and_merge_dedup_witness :
    (∀ c ∈ merge_broader (format_context [exResultA] ["c"])
        [exResultB, exResultA, exResultC] ["c"],
      (["c"] : List String).contains (pyLower c.title) = false)
    ∧ distinctTitles (merge_broader (format_context [exResultA] ["c"])
        [exResultB, exResultA, exResultC] ["c"]) = true := by
  constructor
  · exact c7_exclusion_and_merge_dedup.2.1 [exResultB, exResultA, exResultC]
      (format_context [exResultA] ["c"]) ["c"]
      (c7_exclusion_and_merge_dedup.1 [exResultA] ["c"])
  · exact c7_exclusion_and_merge_dedup.2.2 [exResultB, exResultA, exResultC]
      (format_context [exResultA] ["c"]) ["c"] (by decide)

/-- C6 as amended: on the single-turn scenario history the union of the
four extraction passes, trimmed and lower-cased, is exactly the set
{"inception", "the matrix"} (passes 2 and 3 discard titles of length at
most 2; passes 1 and 4 add their hits without a length check). -/
theorem c6_extraction_union_on_example :
    ∀ (t : String), t ∈ extract_excluded_titles exHistoryTwoTitles ↔
      (t = "inception" ∨ t = "the matrix") := by
  intro t
  have h : extract_excluded_titles exHistoryTwoTitles = ["the matrix", "inception"] := by
    decide
  rw [h]
  simp only [List.mem_cons, List.not_mem_nil, or_false]
  tauto

/-- C6 counterexample: the first pass adds the one-character title of
"**Title**: **A**" to the exclusion set, so titles of length at most 2 are
not discarded by every pass. -/
theorem c6_short_title_not_discarded :
    "a" ∈ extract_excluded_titles exHistoryShortTitle
    ∧ ("a" : String).length ≤ 2 := by
  exact ⟨by decide, by decide⟩

/-- C2 as amended: whenever the response type the prompt builder uses
(forced, or auto-detected from query and context) is the movie or TV-show
recommendation type, the built user prompt contains the literal exactly-5
instruction when no number is parsed from the query, and the literal
exactly-N instruction when N is parsed ("recommend 3 movies" yields the
exactly-3 instruction); other response types receive no count
instruction. -/
theorem c2_count_instruction_for_recommendation_types :
    ∀ (query : String) (context : List CatalogueItem)
      (chat_history : List (String × String)) (response_type0 : Option ResponseType)
      (user_name : Option String),
      (chosen_response_type query context response_type0 = ResponseType.movie_recommendation
        ∨ chosen_response_type query context response_type0 = ResponseType.tv_show_recommendation) →
      ((find_requested_number query = none →
        pyIn no_number_instruction
          (create_structured_prompt_user query context chat_history response_type0 user_name)
          = true)
      ∧ (∀ (n : Nat), find_requested_number query = some n →
        pyIn (requested_number_instruction n)
          (create_structured_prompt_user query context chat_history response_type0 user_name)
          = true)) := by
  intro query context chat_history rt0 user_name hrt
  have hb : (chosen_response_type query context rt0 == ResponseType.movie_recommendation
      || chosen_response_type query context rt0 == ResponseType.tv_show_recommendation)
      = true := by
    rcases hrt with h | h <;> simp [h]
  constructor
  · intro h0
    have hci : count_instruction query = no_number_instruction := by
      rw [count_instruction, h0]
    rw [← hci]
    simp only [create_structured_prompt_user, hb, if_true]
    exact pyIn_sandwich _ _ _
  · intro n hn
    have hci : count_instruction query = requested_number_instruction n := by
      rw [count_instruction, hn]
    rw [← hci]
    simp only [create_structured_prompt_user, hb, if_true]
    exact pyIn_sandwich _ _ _

/-- C2 counterexample: for the query "hello" (auto-detected as general
chat) the builder emits no count instruction at all, refuting the claim
quantified over every call. -/
theorem c2_no_instruction_for_general_chat :
    ¬ (∀ (query : String) (context : List CatalogueItem)
        (chat_history : List (String × String)) (response_type0 : Option ResponseType)
        (user_name : Option String),
        find_requested_number query = none →
        pyIn no_number_instruction
          (create_structured_prompt_user query context chat_history response_type0 user_name)
          = true) := by
  intro h
  have := h "hello" [] [] none none (by decide)
  exact absurd this (by decide)

/-- Witness for C2: "recommend 3 movies" parses to 3 and its prompt carries
the exactly-3 instruction. -/
theorem c2_count_instruction_for_recommendation_types_witness :
    find_requested_number "recommend 3 movies" = some 3
    ∧ pyIn (requested_number_instruction 3)
        (create_structured_prompt_user "recommend 3 movies" [] [] none none) = true := by
  refine ⟨by decide, ?_⟩
  exact (c2_count_instruction_for_recommendation_types "recommend 3 movies" [] [] none none
    (Or.inl (by decide))).2 3 (by decide)
